import Mathlib

/-!
Shallow embedding of `src/code_grant/frontend.rs` of the oxide-auth
repository: the three OAuth2 flow orchestrators (`AuthorizationFlow`,
`GrantFlow`, `AccessFlow`), their parameter-extraction stage, and the
translation of back-end verdicts into abstract HTTP responses.

The abstract `WebRequest` trait is embedded as a record of the three
accessor results (`query`, `urlbody`, `authheader`), each an `Except Unit`
value whose `.error` case models the trait's `Err(())` (malformed
transport input).  `HashMap<String, Vec<String>>` is embedded as an
association list `List (String × List String)`; `HashMap` key uniqueness
becomes an explicit `Nodup` hypothesis where a proof needs it.
Machine bytes (`Vec<u8>`) are embedded as `List Nat`.  A Rust panic
(`Result::unwrap` on an `Err`) is embedded as the `.panic` case of the
`PanicOr` type, so that code that can panic is visibly distinguished from
code that returns.
-/

/-- Verdict enum of the owner-consent handler (`Authentication` in the
source): the owner refused, the UI is still interacting, or the owner
authenticated with the given id. -/
inductive Authentication
  | Failed
  | InProgress
  | Authenticated (owner : String)
deriving DecidableEq

/-- Modelled from the spec: `CodeError` of the missing `backend.rs` —
either the request is unsalvageable (`Ignore`, no trustworthy redirect
target) or a protocol error with a known-safe redirect URL. -/
inductive CodeError
  | Ignore
  | Redirect (url : String)
deriving DecidableEq

/-- Modelled from the spec: `IssuerError` of the missing `backend.rs` —
a 400-class protocol error carrying a JSON body, or a 401-class
client-authentication failure carrying a JSON body and a
`WWW-Authenticate` scheme. -/
inductive IssuerError
  | Invalid (json : String)
  | Unauthorized (json : String) (scheme : String)
deriving DecidableEq

/-- Modelled from the spec: `AccessError` of the missing `backend.rs` —
guard verdicts for a protected-resource request. -/
inductive AccessError
  | InvalidRequest
  | AccessDenied
deriving DecidableEq

/-- The `OAuthError` enum of the source: typed internal errors surfaced to
the host. -/
inductive OAuthError
  | InternalCodeError
  | InternalAccessError
  | AccessDenied
deriving DecidableEq

/-- The error type of a `WebRequest` instance: the Rust bound
`W::Error: From<OAuthError>` is embedded as a sum of the injected
`OAuthError`s and the host's own error type. -/
inductive WebError (ε : Type)
  | oauth (e : OAuthError)
  | host (e : ε)

/-- Modelled from the spec: the registered-client view
(`primitives::registrar::ClientParameter`, not under `src/`) that
`negotiate` validates and the consent handler reads.  Its shape is opaque
to the frontend control flow; only its being passed through matters. -/
structure ClientParameter where
  client_id : String
  scope : Option String
  redirect_url : String
deriving DecidableEq

/-- The `WebRequest` trait embedded as data: the results the three
accessors would report for this request.  `.error ()` is the trait's
`Err(())`, i.e. a malformed query / body / header at transport level. -/
structure WebRequestData where
  query : Except Unit (List (String × List String))
  urlbody : Except Unit (List (String × List String))
  authheader : Except Unit (Option String)

/-- One abstract response-construction step of the `WebResponse` trait. -/
inductive RespStep
  | redirect (url : String)
  | text (body : String)
  | json (body : String)
  | asClientError
  | asUnauthorized
  | withAuthorization (scheme : String)
deriving DecidableEq

/-- The `WebResponse` trait embedded as a record of its fallible
constructors and linear (consume-and-return) modifiers. -/
structure WebResponseI (ρ ε : Type) where
  redirect : String → Except ε ρ
  text : String → Except ε ρ
  json : String → Except ε ρ
  as_client_error : ρ → Except ε ρ
  as_unauthorized : ρ → Except ε ρ
  with_authorization : ρ → String → Except ε ρ

/-- Default implementation of `WebResponse::redirect_error` in the
source: forward the error URL unchanged to `redirect`. -/
def WebResponseI.redirect_error (R : WebResponseI ρ ε) (target : String) : Except ε ρ :=
  R.redirect target

/-- A concrete `WebResponse` instance that never fails and records every
construction step in application order, so theorems can speak about which
operations ran and in which order. -/
def traceR (ε : Type) : WebResponseI (List RespStep) ε where
  redirect := fun u => .ok [.redirect u]
  text := fun s => .ok [.text s]
  json := fun s => .ok [.json s]
  as_client_error := fun r => .ok (r ++ [.asClientError])
  as_unauthorized := fun r => .ok (r ++ [.asUnauthorized])
  with_authorization := fun r s => .ok (r ++ [.withAuthorization s])

/-- Result of a computation that may instead panic (a Rust
`Result::unwrap` applied to an `Err`). -/
inductive PanicOr (α : Type)
  | panic
  | ok (v : α)
deriving DecidableEq

/-- The decoded `/authorize` query fragments (`AuthorizationParameter` in
the source). -/
structure AuthorizationParameter where
  valid : Bool
  client_id : Option String
  scope : Option String
  redirect_url : Option String
  state : Option String
deriving DecidableEq

/-- `AuthorizationParameter::invalid` of the source. -/
def AuthorizationParameter.invalid : AuthorizationParameter :=
  { valid := false, client_id := none, scope := none, redirect_url := none, state := none }

/-- The decoded `/token` request (`AccessTokenParameter` in the source);
`authorization` is the credential pair taken from a `Basic` header. -/
structure AccessTokenParameter where
  valid : Bool
  client_id : Option String
  redirect_url : Option String
  grant_type : Option String
  code : Option String
  authorization : Option (String × List Nat)
deriving DecidableEq

/-- `AccessTokenParameter::invalid` of the source. -/
def AccessTokenParameter.invalid : AccessTokenParameter :=
  { valid := false, code := none, client_id := none, redirect_url := none,
    grant_type := none, authorization := none }

/-- The decoded bearer request (`GuardParameter` in the source). -/
structure GuardParameter where
  valid : Bool
  token : Option String
deriving DecidableEq

/-- `GuardParameter::invalid` of the source. -/
def GuardParameter.invalid : GuardParameter :=
  { valid := false, token := none }

/-- The single-value filtering step shared by `extract_parameters` and
`extract_access_token` in the source: keep exactly the keys whose value
list has exactly one element (`.filter(|&(_, v)| v.len() == 1)` followed
by `v[0]`). -/
def singletons (params : List (String × List String)) : List (String × String) :=
  params.filterMap fun kv =>
    match kv.2 with
    | [v] => some (kv.1, v)
    | _ => none

/-- `extract_parameters` of the source: build the single-valued map and
read the four recognized authorization keys. -/
def extract_parameters (params : List (String × List String)) : AuthorizationParameter where
  valid := true
  client_id := (singletons params).lookup "client_id"
  scope := (singletons params).lookup "scope"
  redirect_url := (singletons params).lookup "redirect_url"
  state := (singletons params).lookup "state"

/-- `extract_access_token` of the source: build the single-valued map and
read the four recognized grant keys; the `authorization` credential field
starts out absent. -/
def extract_access_token (params : List (String × List String)) : AccessTokenParameter where
  valid := true
  client_id := (singletons params).lookup "client_id"
  code := (singletons params).lookup "code"
  redirect_url := (singletons params).lookup "redirect_url"
  grant_type := (singletons params).lookup "grant_type"
  authorization := none

/-- Value of one base64 symbol (byte), standard alphabet, else `none`. -/
def b64val (n : Nat) : Option Nat :=
  if 65 ≤ n ∧ n ≤ 90 then some (n - 65)
  else if 97 ≤ n ∧ n ≤ 122 then some (n - 97 + 26)
  else if 48 ≤ n ∧ n ≤ 57 then some (n - 48 + 52)
  else if n = 43 then some 62
  else if n = 47 then some 63
  else none

/-- Standard base64 decoding over symbol bytes, mirroring
`base64::decode`: four-symbol chunks produce three bytes, a final chunk
may carry one or two `=` padding bytes (61), and an unpadded two- or
three-symbol tail is also accepted; anything else is a decode failure. -/
def b64decodeNats : List Nat → Option (List Nat)
  | [] => some []
  | [a, b] =>
    match b64val a, b64val b with
    | some va, some vb => some [va * 4 + vb / 16]
    | _, _ => none
  | [a, b, c] =>
    match b64val a, b64val b, b64val c with
    | some va, some vb, some vc => some [va * 4 + vb / 16, vb % 16 * 16 + vc / 4]
    | _, _, _ => none
  | a :: b :: c :: d :: rest =>
    match b64val a, b64val b with
    | some va, some vb =>
      if c = 61 then
        if d = 61 ∧ rest = [] then some [va * 4 + vb / 16] else none
      else
        match b64val c with
        | some vc =>
          if d = 61 then
            if rest = [] then some [va * 4 + vb / 16, vb % 16 * 16 + vc / 4] else none
          else
            match b64val d with
            | some vd =>
              (b64decodeNats rest).map fun tail =>
                (va * 4 + vb / 16) :: (vb % 16 * 16 + vc / 4) :: (vc % 4 * 64 + vd) :: tail
            | none => none
        | none => none
    | _, _ => none
  | _ => none

/-- `base64::decode` applied to the UTF-8 bytes of a character list (all
inputs of interest are ASCII, where bytes and code points agree; a
non-alphabet symbol fails either way). -/
def base64decode (s : List Char) : Option (List Nat) :=
  b64decodeNats (s.map Char.toNat)

/-- `str::splitn(2, ':')` as used by the source: the text before the
first colon and the full remainder after it, or `none` when the string
holds no colon (the source's second `split.next()` returning `None`). -/
def splitOnceColon : List Char → Option (List Char × List Char)
  | [] => none
  | c :: rest =>
    if c = ':' then some ([], rest)
    else
      match splitOnceColon rest with
      | none => none
      | some (pre, post) => some (c :: pre, post)

/-- The `Authorization`-header branch of `GrantFlow::create_valid_params`:
require the six-character `"Basic "` prefix, split the remaining
(still-encoded) text on the first colon, base64-decode only the part
after the colon, and pair the plain-text client with the decoded bytes.
Any failure rejects the whole header (`None`). -/
def parseBasicAuth (header : String) : Option (String × List Nat) :=
  if "Basic ".data.isPrefixOf header.data then
    match splitOnceColon (header.data.drop 6) with
    | none => none
    | some (client, passwd64) =>
      match base64decode passwd64 with
      | none => none
      | some passwd => some (String.mk client, passwd)
  else none

/-- Split a decoded byte list on the leftmost colon byte (58). -/
def splitBytesOnceColon : List Nat → Option (List Nat × List Nat)
  | [] => none
  | b :: rest =>
    if b = 58 then some ([], rest)
    else
      match splitBytesOnceColon rest with
      | none => none
      | some (pre, post) => some (b :: pre, post)

/-- View a byte list as a string (ASCII range in all uses here). -/
def bytesToString (bs : List Nat) : String :=
  String.mk (bs.map Char.ofNat)

/-- Modelled from the spec: the RFC 7617-conformant `Basic` credential
extraction the spec mandates — decode the full base64 blob after the
`"Basic "` prefix first, then split the decoded bytes on the leftmost
colon into client id and secret.  Stated only to be compared with the
source's `parseBasicAuth`. -/
def basicAuthDecodeFirst (header : String) : Option (String × List Nat) :=
  if "Basic ".data.isPrefixOf header.data then
    match base64decode (header.data.drop 6) with
    | none => none
    | some bytes =>
      match splitBytesOnceColon bytes with
      | none => none
      | some (client, passwd) => some (bytesToString client, passwd)
  else none

/-- `AuthorizationFlow::prepare` of the source: decode the query into an
`AuthorizationParameter`, mapping a transport `Err` to the invalid view,
and always return `Ok`. -/
def AuthorizationFlow.prepare (r : WebRequestData) : Except Unit AuthorizationParameter :=
  .ok (match r.query with
       | .ok q => extract_parameters q
       | .error _ => AuthorizationParameter.invalid)

/-- Which back-end operation an `AuthorizationFlow::handle` run invoked
(`consent` is the owner-consent handler call). -/
inductive BackCall
  | negotiate
  | consent
  | deny
  | authorize
deriving DecidableEq

/-- The back-end answers available to one `AuthorizationFlow::handle`
invocation: the `negotiate` verdict, the consent handler (a function of
the negotiated client view), and the `deny` / `authorize` verdicts of the
negotiated grant. -/
structure AuthBackend (ρ ε : Type) where
  negotiate : Except CodeError ClientParameter
  get_owner_authorization : ClientParameter → Except (WebError ε) (Authentication × ρ)
  deny : Except CodeError String
  authorize : String → Except CodeError String

/-- `AuthorizationFlow::handle` of the source, paired with the list of
back-end calls it performed, in order.  `negotiate` errors dispatch to an
internal error (`Ignore`) or a `redirect_error` (`Redirect`); the consent
verdict selects `deny`, an early verbatim return (`InProgress`), or
`authorize`; the second verdict dispatches the same way, with `Ok(url)`
becoming a plain redirect. -/
def AuthorizationFlow.handle (R : WebResponseI ρ (WebError ε)) (B : AuthBackend ρ ε) :
    Except (WebError ε) ρ × List BackCall :=
  match B.negotiate with
  | .error CodeError.Ignore => (.error (.oauth .InternalCodeError), [.negotiate])
  | .error (CodeError.Redirect url) => (R.redirect_error url, [.negotiate])
  | .ok negotiated =>
    match B.get_owner_authorization negotiated with
    | .error e => (.error e, [.negotiate, .consent])
    | .ok (Authentication.InProgress, response) => (.ok response, [.negotiate, .consent])
    | .ok (Authentication.Failed, _) =>
      (match B.deny with
       | .error CodeError.Ignore => .error (.oauth .InternalCodeError)
       | .error (CodeError.Redirect url) => R.redirect_error url
       | .ok url => R.redirect url,
       [.negotiate, .consent, .deny])
    | .ok (Authentication.Authenticated owner, _) =>
      (match B.authorize owner with
       | .error CodeError.Ignore => .error (.oauth .InternalCodeError)
       | .error (CodeError.Redirect url) => R.redirect_error url
       | .ok url => R.redirect url,
       [.negotiate, .consent, .authorize])

/-- `GrantFlow::create_valid_params` of the source.  The two `.unwrap()`
calls on the transport results become `.panic`; a malformed `Basic`
header is the early `return None`; otherwise the form body is extracted
and the header credentials are written into the parameter view. -/
def GrantFlow.createValidParams (r : WebRequestData) : PanicOr (Option AccessTokenParameter) :=
  match r.authheader with
  | .error _ => .panic
  | .ok hdr =>
    match (match hdr with
           | none => some none
           | some header =>
             match parseBasicAuth header with
             | none => none
             | some cred => some (some cred)) with
    | none => .ok none
    | some authorization =>
      match r.urlbody with
      | .error _ => .panic
      | .ok body => .ok (some { extract_access_token body with authorization := authorization })

/-- `GrantFlow::prepare` of the source: `create_valid_params(req)
.unwrap_or(AccessTokenParameter::invalid())`, with a panic inside
`create_valid_params` propagating. -/
def GrantFlow.prepare (r : WebRequestData) : PanicOr AccessTokenParameter :=
  match GrantFlow.createValidParams r with
  | .panic => .panic
  | .ok params => .ok (params.getD AccessTokenParameter.invalid)

/-- `GrantFlow::handle` of the source: dispatch the issuer verdict of
`use_code` (the `Ok` token is represented by its `to_json()` string) into
response-construction steps. -/
def GrantFlow.handle (R : WebResponseI ρ ε) (useCode : Except IssuerError String) : Except ε ρ :=
  match useCode with
  | .error (IssuerError.Invalid json_data) =>
    (R.json json_data).bind fun r => R.as_client_error r
  | .error (IssuerError.Unauthorized json_data scheme) =>
    ((R.json json_data).bind fun r => R.as_unauthorized r).bind fun r =>
      R.with_authorization r scheme
  | .ok token => R.json token

/-- `AccessFlow::prepare` of the source: wrap the raw header in a valid
`GuardParameter`, or the invalid one when the transport reports a
malformed header; always `Ok`. -/
def AccessFlow.prepare (r : WebRequestData) : Except Unit GuardParameter :=
  .ok (match r.authheader with
       | .ok auth => { valid := true, token := auth }
       | .error _ => GuardParameter.invalid)

/-- `AccessFlow::handle` of the source: pass the guard verdict through,
mapping the two `AccessError`s to their typed `OAuthError`s. -/
def AccessFlow.handle (protectResult : Except AccessError Unit) : Except OAuthError Unit :=
  protectResult.mapError fun err =>
    match err with
    | AccessError.InvalidRequest => OAuthError.InternalAccessError
    | AccessError.AccessDenied => OAuthError.AccessDenied

/-- Keys of an association-list map are pairwise distinct (the `HashMap`
invariant of the transport interface). -/
def nodupKeys (p : List (String × List String)) : Prop :=
  (p.map Prod.fst).Nodup

/-- Collapse a looked-up value list the way the extraction stage does:
only a one-element list survives. -/
def singleVal : Option (List String) → Option String
  | some [v] => some v
  | _ => none

/-- Equivalence of two `query()` results: both malformed, or both maps
with well-formed keys and the same bindings. -/
def queryEquiv : Except Unit (List (String × List String)) →
    Except Unit (List (String × List String)) → Prop
  | .error _, .error _ => True
  | .ok p, .ok q => nodupKeys p ∧ nodupKeys q ∧ ∀ k, p.lookup k = q.lookup k
  | _, _ => False

/-- C1: the claim says a transport-level failure of `authheader()` or
`urlbody()` still lets `GrantFlow::prepare` return normally with the
invalid parameter view and never panic.  The source instead calls
`.unwrap()` on both results, so at a request whose header (respectively
body) accessor reports `Err`, `prepare` panics. -/
theorem grantFlow_prepare_panics_on_transport_failure :
    GrantFlow.prepare ⟨.ok [], .ok [], .error ()⟩ = PanicOr.panic ∧
    GrantFlow.prepare ⟨.ok [], .error (), .ok none⟩ = PanicOr.panic :=
  ⟨rfl, rfl⟩

/-- C2: the claim says credential extraction decodes the full base64 blob
first and then splits the decoded bytes on the leftmost colon.  The
source splits the still-encoded text first: on the RFC 7617 header
`"Basic YXBwOnMzY3JldA=="` (base64 of `app:s3cret`) it finds no colon and
rejects, while the decode-first reading yields `("app", "s3cret")`; the
source instead accepts the non-standard shape `"Basic app:czNjcmV0"`. -/
theorem basic_auth_split_precedes_decode :
    parseBasicAuth "Basic YXBwOnMzY3JldA==" = none ∧
    basicAuthDecodeFirst "Basic YXBwOnMzY3JldA==" =
      some ("app", [115, 51, 99, 114, 101, 116]) ∧
    parseBasicAuth "Basic app:czNjcmV0" = some ("app", [115, 51, 99, 114, 101, 116]) :=
  ⟨by decide, by decide, by decide⟩

/-- C3: `GrantFlow::handle` maps the issuer verdict exactly as claimed —
`Ok(token)` is the bare JSON body with no status or header step,
`Invalid(json)` is the JSON body followed only by `as_client_error`, and
`Unauthorized(json, scheme)` is the JSON body, then `as_unauthorized`,
then `with_authorization(scheme)`, in that order. -/
theorem grantFlow_handle_issuer_dispatch :
    (∀ t, GrantFlow.handle (traceR Unit) (.ok t) = .ok [RespStep.json t]) ∧
    (∀ j, GrantFlow.handle (traceR Unit) (.error (.Invalid j)) =
        .ok [RespStep.json j, RespStep.asClientError]) ∧
    (∀ j s, GrantFlow.handle (traceR Unit) (.error (.Unauthorized j s)) =
        .ok [RespStep.json j, RespStep.asUnauthorized, RespStep.withAuthorization s]) :=
  ⟨fun _ => rfl, fun _ => rfl, fun _ _ => rfl⟩

/-- C4: every `CodeError` verdict reaching `AuthorizationFlow::handle` —
from `negotiate`, `deny`, or `authorize` — is dispatched uniformly:
`Ignore` becomes the typed `InternalCodeError` with no response
constructed, `Redirect(url)` becomes a `redirect_error` response whose
target is exactly `url`, and a final `Ok(url)` becomes a plain redirect
to `url`. -/
theorem authorizationFlow_handle_code_error_dispatch :
    (∀ (cons : ClientParameter → Except (WebError Unit) (Authentication × List RespStep))
       (den : Except CodeError String) (auth : String → Except CodeError String),
       AuthorizationFlow.handle (traceR (WebError Unit)) ⟨.error .Ignore, cons, den, auth⟩ =
         (.error (.oauth .InternalCodeError), [.negotiate])) ∧
    (∀ (cons : ClientParameter → Except (WebError Unit) (Authentication × List RespStep))
       (den : Except CodeError String) (auth : String → Except CodeError String) (u : String),
       AuthorizationFlow.handle (traceR (WebError Unit))
         ⟨.error (.Redirect u), cons, den, auth⟩ = (.ok [.redirect u], [.negotiate])) ∧
    (∀ (cp : ClientParameter) (resp : List RespStep) (auth : String → Except CodeError String),
       AuthorizationFlow.handle (traceR (WebError Unit))
         ⟨.ok cp, fun _ => .ok (.Failed, resp), .error .Ignore, auth⟩ =
         (.error (.oauth .InternalCodeError), [.negotiate, .consent, .deny])) ∧
    (∀ (cp : ClientParameter) (resp : List RespStep) (auth : String → Except CodeError String)
       (u : String),
       AuthorizationFlow.handle (traceR (WebError Unit))
         ⟨.ok cp, fun _ => .ok (.Failed, resp), .error (.Redirect u), auth⟩ =
         (.ok [.redirect u], [.negotiate, .consent, .deny])) ∧
    (∀ (cp : ClientParameter) (resp : List RespStep) (auth : String → Except CodeError String)
       (u : String),
       AuthorizationFlow.handle (traceR (WebError Unit))
         ⟨.ok cp, fun _ => .ok (.Failed, resp), .ok u, auth⟩ =
         (.ok [.redirect u], [.negotiate, .consent, .deny])) ∧
    (∀ (cp : ClientParameter) (resp : List RespStep) (den : Except CodeError String)
       (o : String),
       AuthorizationFlow.handle (traceR (WebError Unit))
         ⟨.ok cp, fun _ => .ok (.Authenticated o, resp), den, fun _ => .error .Ignore⟩ =
         (.error (.oauth .InternalCodeError), [.negotiate, .consent, .authorize])) ∧
    (∀ (cp : ClientParameter) (resp : List RespStep) (den : Except CodeError String)
       (o u : String),
       AuthorizationFlow.handle (traceR (WebError Unit))
         ⟨.ok cp, fun _ => .ok (.Authenticated o, resp), den, fun _ => .error (.Redirect u)⟩ =
         (.ok [.redirect u], [.negotiate, .consent, .authorize])) ∧
    (∀ (cp : ClientParameter) (resp : List RespStep) (den : Except CodeError String)
       (o u : String),
       AuthorizationFlow.handle (traceR (WebError Unit))
         ⟨.ok cp, fun _ => .ok (.Authenticated o, resp), den, fun _ => .ok u⟩ =
         (.ok [.redirect u], [.negotiate, .consent, .authorize])) :=
  ⟨fun _ _ _ => rfl, fun _ _ _ _ => rfl, fun _ _ _ => rfl, fun _ _ _ _ => rfl,
   fun _ _ _ _ => rfl, fun _ _ _ _ => rfl, fun _ _ _ _ _ => rfl, fun _ _ _ _ _ => rfl⟩

/-- C6: under a well-formed transport, an absent `Authorization` header
leaves `authorization = none` while the body fields are still extracted
with `valid = true`; a present header that is malformed — wrong `"Basic "`
prefix, no colon after it, or a base64 failure, which are exactly the
rejection cases of `parseBasicAuth` — yields the fully invalid parameter
view retaining no field at all. -/
theorem grantFlow_prepare_header_cases :
    (∀ (r : WebRequestData) (body : List (String × List String)),
       r.authheader = .ok none → r.urlbody = .ok body →
       GrantFlow.prepare r = .ok { extract_access_token body with authorization := none } ∧
       (extract_access_token body).valid = true ∧
       (extract_access_token body).authorization = none) ∧
    (∀ (r : WebRequestData) (h : String),
       r.authheader = .ok (some h) → parseBasicAuth h = none →
       GrantFlow.prepare r = .ok AccessTokenParameter.invalid) ∧
    (AccessTokenParameter.invalid.valid = false ∧
     AccessTokenParameter.invalid.client_id = none ∧
     AccessTokenParameter.invalid.redirect_url = none ∧
     AccessTokenParameter.invalid.grant_type = none ∧
     AccessTokenParameter.invalid.code = none ∧
     AccessTokenParameter.invalid.authorization = none) ∧
    (∀ h : String, parseBasicAuth h = none ↔
       ("Basic ".data.isPrefixOf h.data = false ∨
        splitOnceColon (h.data.drop 6) = none ∨
        ∃ c p64, splitOnceColon (h.data.drop 6) = some (c, p64) ∧
          base64decode p64 = none)) := by
  refine ⟨?_, ?_, ⟨rfl, rfl, rfl, rfl, rfl, rfl⟩, ?_⟩
  · intro r body h1 h2
    refine ⟨?_, rfl, rfl⟩
    simp [GrantFlow.prepare, GrantFlow.createValidParams, h1, h2]
  · intro r h h1 h2
    simp [GrantFlow.prepare, GrantFlow.createValidParams, h1, h2]
  · intro h
    unfold parseBasicAuth
    by_cases hb : "Basic ".data.isPrefixOf h.data = true
    · rcases hsp : splitOnceColon (h.data.drop 6) with _ | ⟨c, p⟩
      · simp [hb, hsp]
      · rcases hdec : base64decode p with _ | bytes
        · simp only [hb, hsp, hdec, if_true]
          simp only [Option.some.injEq, Prod.mk.injEq, eq_self_iff_true, true_iff]
          exact Or.inr (Or.inr ⟨c, p, ⟨rfl, rfl⟩, hdec⟩)
        · simp [hb, hsp, hdec]
    · simp only [Bool.not_eq_true] at hb
      simp [hb]

/-- Witness for C6 at concrete requests: one with no header and a
one-field body, one with a non-`Basic` header. -/
theorem grantFlow_prepare_header_cases_witness :
    GrantFlow.prepare ⟨.ok [], .ok [("grant_type", ["authorization_code"])], .ok none⟩ =
      .ok { extract_access_token [("grant_type", ["authorization_code"])] with
            authorization := none } ∧
    GrantFlow.prepare ⟨.ok [], .ok [], .ok (some "Bearer xyz")⟩ =
      .ok AccessTokenParameter.invalid :=
  ⟨(grantFlow_prepare_header_cases.1 _ _ rfl rfl).1,
   grantFlow_prepare_header_cases.2.1 _ "Bearer xyz" rfl (by decide)⟩

/-- C8: `AccessFlow::handle` succeeds exactly when the guard verdict is
`Ok(())`, maps `InvalidRequest` to `InternalAccessError` and
`AccessDenied` to `AccessDenied`, and `AccessFlow::prepare` turns a
malformed-header transport report into the invalid `GuardParameter`. -/
theorem accessFlow_handle_verdict_mapping :
    (∀ v : Except AccessError Unit, AccessFlow.handle v = .ok () ↔ v = .ok ()) ∧
    AccessFlow.handle (.error .InvalidRequest) = .error OAuthError.InternalAccessError ∧
    AccessFlow.handle (.error .AccessDenied) = .error OAuthError.AccessDenied ∧
    (∀ r : WebRequestData, r.authheader = .error () →
       AccessFlow.prepare r = .ok GuardParameter.invalid) := by
  refine ⟨?_, rfl, rfl, ?_⟩
  · intro v
    rcases v with e | u
    · rcases e <;> simp [AccessFlow.handle, Except.mapError]
    · cases u
      simp [AccessFlow.handle, Except.mapError]
  · intro r h
    simp [AccessFlow.prepare, h]

/-- Witness for C8 at a request whose `authheader()` reports a malformed
header. -/
theorem accessFlow_handle_verdict_mapping_witness :
    AccessFlow.prepare ⟨.ok [], .ok [], .error ()⟩ = .ok GuardParameter.invalid :=
  accessFlow_handle_verdict_mapping.2.2.2 _ rfl

/-- Every run of `AuthorizationFlow::handle` performs one of exactly four
back-end call sequences. -/
theorem handle_calls (R : WebResponseI ρ (WebError ε)) (B : AuthBackend ρ ε) :
    (AuthorizationFlow.handle R B).2 = [BackCall.negotiate] ∨
    (AuthorizationFlow.handle R B).2 = [BackCall.negotiate, BackCall.consent] ∨
    (AuthorizationFlow.handle R B).2 = [BackCall.negotiate, BackCall.consent, BackCall.deny] ∨
    (AuthorizationFlow.handle R B).2 =
      [BackCall.negotiate, BackCall.consent, BackCall.authorize] := by
  obtain ⟨neg, cons, den, auth⟩ := B
  rcases neg with ce | cp
  · rcases ce <;> simp [AuthorizationFlow.handle]
  · rcases hc : cons cp with e | ⟨a, r⟩
    · simp [AuthorizationFlow.handle, hc]
    · rcases a <;> simp [AuthorizationFlow.handle, hc]

/-- C5: one `AuthorizationFlow::handle` invocation calls every back-end
operation at most once, never calls both `deny` and `authorize`, and on
an `InProgress` consent verdict returns the accompanying response
verbatim with no back-end call after the consent step. -/
theorem authorizationFlow_handle_backend_call_discipline (R : WebResponseI ρ (WebError ε))
    (B : AuthBackend ρ ε) :
    (∀ c : BackCall, (AuthorizationFlow.handle R B).2.count c ≤ 1) ∧
    ¬(BackCall.deny ∈ (AuthorizationFlow.handle R B).2 ∧
      BackCall.authorize ∈ (AuthorizationFlow.handle R B).2) ∧
    (∀ (cp : ClientParameter) (resp : ρ),
       B.negotiate = .ok cp →
       B.get_owner_authorization cp = .ok (Authentication.InProgress, resp) →
       AuthorizationFlow.handle R B = (.ok resp, [BackCall.negotiate, BackCall.consent])) := by
  refine ⟨?_, ?_, ?_⟩
  · intro c
    rcases handle_calls R B with h | h | h | h <;> rw [h] <;> cases c <;> decide
  · rcases handle_calls R B with h | h | h | h <;> rw [h] <;> decide
  · intro cp resp h1 h2
    obtain ⟨neg, cons, den, auth⟩ := B
    simp only at h1 h2
    simp [AuthorizationFlow.handle, h1, h2]

/-- Witness for C5: an `InProgress` consent verdict short-circuits with
the consent page returned verbatim. -/
theorem authorizationFlow_handle_backend_call_discipline_witness :
    AuthorizationFlow.handle (traceR (WebError Unit))
      ⟨.ok ⟨"app", none, "https://c/cb"⟩,
       fun _ => .ok (Authentication.InProgress, [RespStep.text "consent page"]),
       .ok "u", fun _ => .ok "u"⟩ =
      (.ok [RespStep.text "consent page"], [BackCall.negotiate, BackCall.consent]) :=
  (authorizationFlow_handle_backend_call_discipline _ _).2.2
    ⟨"app", none, "https://c/cb"⟩ _ rfl rfl

/-- C10: when the consent verdict is `Failed` or `Authenticated`, the
response the consent handler returned alongside it is discarded — two
runs differing only in that response produce identical results; the
response matters only for `InProgress`. -/
theorem authorizationFlow_handle_response_irrelevance (R : WebResponseI ρ (WebError ε))
    (B : AuthBackend ρ ε) (a : Authentication) (r1 r2 : ρ)
    (h : a ≠ Authentication.InProgress) :
    AuthorizationFlow.handle R { B with get_owner_authorization := fun _ => .ok (a, r1) } =
    AuthorizationFlow.handle R { B with get_owner_authorization := fun _ => .ok (a, r2) } := by
  obtain ⟨neg, cons, den, auth⟩ := B
  rcases neg with ce | cp
  · rcases ce <;> rfl
  · rcases a with _ | _ | owner
    · rfl
    · exact absurd rfl h
    · rfl

/-- Witness for C10: an owner denial with two different accompanying
consent pages yields the same denial redirect. -/
theorem authorizationFlow_handle_response_irrelevance_witness :
    AuthorizationFlow.handle (traceR (WebError Unit))
      { negotiate := .ok ⟨"app", none, "https://c/cb"⟩,
        get_owner_authorization := fun _ =>
          .ok (Authentication.Failed, [RespStep.text "page a"]),
        deny := .ok "https://c/cb?error=access_denied",
        authorize := fun _ => .ok "u" } =
    AuthorizationFlow.handle (traceR (WebError Unit))
      { negotiate := .ok ⟨"app", none, "https://c/cb"⟩,
        get_owner_authorization := fun _ =>
          .ok (Authentication.Failed, [RespStep.text "page b"]),
        deny := .ok "https://c/cb?error=access_denied",
        authorize := fun _ => .ok "u" } :=
  authorizationFlow_handle_response_irrelevance (traceR (WebError Unit))
    ⟨.ok ⟨"app", none, "https://c/cb"⟩, fun _ => .error (.oauth .InternalCodeError),
     .ok "https://c/cb?error=access_denied", fun _ => .ok "u"⟩
    Authentication.Failed [RespStep.text "page a"] [RespStep.text "page b"] (by decide)

/-- Unfolding `singletons` over a binding with an empty value list. -/
theorem singletons_cons_nil (k : String) (rest : List (String × List String)) :
    singletons ((k, []) :: rest) = singletons rest := rfl

/-- Unfolding `singletons` over a binding with a one-element value list. -/
theorem singletons_cons_single (k v : String) (rest : List (String × List String)) :
    singletons ((k, [v]) :: rest) = (k, v) :: singletons rest := rfl

/-- Unfolding `singletons` over a binding with two or more values. -/
theorem singletons_cons_many (k v v2 : String) (vt : List String)
    (rest : List (String × List String)) :
    singletons ((k, v :: v2 :: vt) :: rest) = singletons rest := rfl

/-- Removing a key whose every binding is non-single-valued does not
change the single-valued map. -/
theorem singletons_filter (p : List (String × List String)) (k : String)
    (h : ∀ vs, (k, vs) ∈ p → vs.length ≠ 1) :
    singletons (p.filter fun kv => kv.1 != k) = singletons p := by
  induction p with
  | nil => rfl
  | cons kv rest ih =>
    obtain ⟨k', vs⟩ := kv
    have hrest : ∀ vs, (k, vs) ∈ rest → vs.length ≠ 1 :=
      fun vs hm => h vs (List.mem_cons_of_mem _ hm)
    by_cases hk : k' = k
    · subst hk
      have hlen : vs.length ≠ 1 := h vs (List.mem_cons_self _ _)
      rw [List.filter_cons_of_neg (by simp)]
      rcases vs with _ | ⟨v, _ | ⟨v2, vt⟩⟩
      · rw [singletons_cons_nil, ih hrest]
      · exact absurd rfl hlen
      · rw [singletons_cons_many, ih hrest]
    · rw [List.filter_cons_of_pos (by simp [bne_iff_ne]; exact hk)]
      rcases vs with _ | ⟨v, _ | ⟨v2, vt⟩⟩
      · rw [singletons_cons_nil, singletons_cons_nil, ih hrest]
      · rw [singletons_cons_single, singletons_cons_single, ih hrest]
      · rw [singletons_cons_many, singletons_cons_many, ih hrest]

/-- A key absent from the original map is absent from the single-valued
map. -/
theorem lookup_singletons_none (p : List (String × List String)) (k : String)
    (h : k ∉ p.map Prod.fst) : (singletons p).lookup k = none := by
  induction p with
  | nil => rfl
  | cons kv rest ih =>
    obtain ⟨k', vs⟩ := kv
    simp only [List.map_cons, List.mem_cons, not_or] at h
    obtain ⟨hne, hrest⟩ := h
    rcases vs with _ | ⟨v, _ | ⟨v2, vt⟩⟩
    · rw [singletons_cons_nil]; exact ih hrest
    · rw [singletons_cons_single, List.lookup_cons, beq_false_of_ne hne]
      exact ih hrest
    · rw [singletons_cons_many]; exact ih hrest

/-- Under distinct keys, a `singletons` lookup is the original lookup
collapsed through `singleVal`. -/
theorem lookup_singletons (p : List (String × List String)) (k : String)
    (h : nodupKeys p) : (singletons p).lookup k = singleVal (p.lookup k) := by
  induction p with
  | nil => rfl
  | cons kv rest ih =>
    obtain ⟨k', vs⟩ := kv
    simp only [nodupKeys, List.map_cons, List.nodup_cons] at h
    obtain ⟨hnm, hnd⟩ := h
    have ihr := ih hnd
    by_cases hk : k = k'
    · subst hk
      rw [List.lookup_cons, beq_self_eq_true]
      rcases vs with _ | ⟨v, _ | ⟨v2, vt⟩⟩
      · rw [singletons_cons_nil]
        exact (lookup_singletons_none rest k hnm).trans rfl
      · rw [singletons_cons_single, List.lookup_cons, beq_self_eq_true]
        rfl
      · rw [singletons_cons_many]
        exact (lookup_singletons_none rest k hnm).trans rfl
    · rw [List.lookup_cons, beq_false_of_ne hk]
      rcases vs with _ | ⟨v, _ | ⟨v2, vt⟩⟩
      · rw [singletons_cons_nil]; exact ihr
      · rw [singletons_cons_single, List.lookup_cons, beq_false_of_ne hk]
        exact ihr
      · rw [singletons_cons_many]; exact ihr

/-- C7: both extraction functions keep exactly the single-valued
recognized keys, so a key whose bindings all have zero or at least two
values can be filtered out of the mapping without changing the extracted
parameter view — a duplicated key behaves like an absent one. -/
theorem extract_duplicate_key_dropped (params : List (String × List String)) (k : String)
    (h : ∀ vs, (k, vs) ∈ params → vs.length ≠ 1) :
    extract_parameters params = extract_parameters (params.filter fun kv => kv.1 != k) ∧
    extract_access_token params =
      extract_access_token (params.filter fun kv => kv.1 != k) := by
  have hs := singletons_filter params k h
  constructor
  · unfold extract_parameters
    rw [hs]
  · unfold extract_access_token
    rw [hs]

/-- Witness for C7: a duplicated `client_id` (two values) extracts the
same as the mapping with `client_id` removed. -/
theorem extract_duplicate_key_dropped_witness :
    extract_parameters [("client_id", ["a", "b"]), ("state", ["s"])] =
      extract_parameters
        ([("client_id", ["a", "b"]), ("state", ["s"])].filter fun kv =>
          kv.1 != "client_id") :=
  (extract_duplicate_key_dropped _ "client_id" (by
      intro vs hv
      simp only [List.mem_cons, List.not_mem_nil, or_false, Prod.mk.injEq] at hv
      rcases hv with ⟨-, hv⟩ | ⟨hv, -⟩
      · subst hv; decide
      · exact absurd hv (by decide))).1

/-- Extraction depends only on the bindings of the query map, not on its
order of entries. -/
theorem extract_parameters_congr (p q : List (String × List String))
    (hp : nodupKeys p) (hq : nodupKeys q) (h : ∀ k, p.lookup k = q.lookup k) :
    extract_parameters p = extract_parameters q := by
  have e : ∀ k, (singletons p).lookup k = (singletons q).lookup k := fun k => by
    rw [lookup_singletons p k hp, lookup_singletons q k hq, h]
  unfold extract_parameters
  rw [e, e, e, e]

/-- C9: `AuthorizationFlow::prepare` is total — it returns `Ok` on every
request, converting a `query()` error into the invalid parameter view —
and deterministic over query content: equivalent query results produce
equal parameter views. -/
theorem authorizationFlow_prepare_total_idempotent :
    (∀ r : WebRequestData, ∃ p, AuthorizationFlow.prepare r = .ok p) ∧
    (∀ r : WebRequestData, r.query = .error () →
       AuthorizationFlow.prepare r = .ok AuthorizationParameter.invalid) ∧
    (∀ r1 r2 : WebRequestData, queryEquiv r1.query r2.query →
       AuthorizationFlow.prepare r1 = AuthorizationFlow.prepare r2) := by
  refine ⟨fun r => ⟨_, rfl⟩, ?_, ?_⟩
  · intro r h
    simp [AuthorizationFlow.prepare, h]
  · intro r1 r2 h
    rcases hq1 : r1.query with u1 | p
    · rcases hq2 : r2.query with u2 | q
      · simp [AuthorizationFlow.prepare, hq1, hq2]
      · rw [hq1, hq2] at h
        exact absurd h (by simp [queryEquiv])
    · rcases hq2 : r2.query with u2 | q
      · rw [hq1, hq2] at h
        exact absurd h (by simp [queryEquiv])
      · rw [hq1, hq2] at h
        obtain ⟨hp, hqn, hl⟩ := h
        simp [AuthorizationFlow.prepare, hq1, hq2, extract_parameters_congr p q hp hqn hl]

/-- Witness for C9: a malformed query becomes the invalid view, and two
permuted copies of the same query extract equal views. -/
theorem authorizationFlow_prepare_total_idempotent_witness :
    AuthorizationFlow.prepare ⟨.error (), .ok [], .ok none⟩ =
      .ok AuthorizationParameter.invalid ∧
    AuthorizationFlow.prepare
        ⟨.ok [("client_id", ["a"]), ("state", ["s"])], .ok [], .ok none⟩ =
      AuthorizationFlow.prepare
        ⟨.ok [("state", ["s"]), ("client_id", ["a"])], .ok [], .ok none⟩ := by
  constructor
  · exact authorizationFlow_prepare_total_idempotent.2.1 _ rfl
  · refine authorizationFlow_prepare_total_idempotent.2.2 _ _ ?_
    refine ⟨by unfold nodupKeys; decide, by unfold nodupKeys; decide, ?_⟩
    intro k
    by_cases h1 : k = "client_id"
    · subst h1; decide
    · by_cases h2 : k = "state"
      · subst h2; decide
      · simp [List.lookup_cons, List.lookup_nil, beq_false_of_ne h1, beq_false_of_ne h2]
